import Mathlib

/-!
Shallow embedding of the testflow step-interpretation and execution pipeline:
the rule-based step interpreter and orchestration in `src/backend/server.py`
(`execute_test_background`), the AI interpreter and validation fallbacks in
`src/testflow/ai_interpreter.py` and
`src/testflow/services/validation_service.py`, and the Playwright browser
handler in `src/testflow/playwright_app/handler.py`.

Python strings are modelled as Lean `String`; Python dicts with known keys as
structures whose optional keys are `Option` fields; Python truthiness of
strings/options is made explicit; exceptions thrown by browser primitives are
modelled by an environment record saying which primitive succeeds.
-/

namespace Testflow

/-! ### String helpers (Python `str` operations, char-list based) -/

/-- Python `\s` whitespace class: space, tab, newline, carriage return,
vertical tab, form feed. -/
def isPySpace (c : Char) : Bool :=
  c = ' ' || c = '\t' || c = '\n' || c = '\r' || c = Char.ofNat 11 || c = Char.ofNat 12

/-- Predicate `chStarts p l` : `p` is a leading segment of `l`. -/
def chStarts : List Char → List Char → Bool
  | [], _ => true
  | _ :: _, [] => false
  | c :: cs, d :: ds => c = d && chStarts cs ds

/-- Predicate `chSub n l` : `n` occurs contiguously inside `l` (Python `in` on strings). -/
def chSub (n : List Char) : List Char → Bool
  | [] => n.isEmpty
  | d :: ds => chStarts n (d :: ds) || chSub n ds

/-- Python `needle in hay` for strings. -/
def strIn (needle hay : String) : Bool :=
  chSub needle.toList hay.toList

/-- Python `str.lower()` (ASCII behaviour). -/
def strLower (s : String) : String :=
  String.mk (s.toList.map Char.toLower)

/-- Python `str.strip()`: drop leading and trailing whitespace. -/
def strStrip (s : String) : String :=
  String.mk (((s.toList.dropWhile isPySpace).reverse.dropWhile isPySpace).reverse)

/-- Python `str[:n]` slicing by characters. -/
def strTake (s : String) (n : Nat) : String :=
  String.mk (s.toList.take n)

/-- Python `str.startswith(p)`. -/
def strStarts (s p : String) : Bool :=
  chStarts p.toList s.toList

/-- Python `str.rstrip('/')`. -/
def rstripSlash (s : String) : String :=
  String.mk ((s.toList.reverse.dropWhile (fun c => c = '/')).reverse)

/-- Replace every non-overlapping occurrence of `pat` (leftmost first), as
Python `str.replace`; `fuel` bounds the number of scanning steps (each step
consumes at least one character, so the input length is enough fuel). -/
def chReplaceFuel (pat rep : List Char) : Nat → List Char → List Char
  | 0, l => l
  | _ + 1, [] => []
  | fuel + 1, c :: cs =>
    if pat.length ≠ 0 ∧ chStarts pat (c :: cs) = true then
      rep ++ chReplaceFuel pat rep fuel (cs.drop (pat.length - 1))
    else
      c :: chReplaceFuel pat rep fuel cs

/-- Python `str.replace(pat, rep)`. -/
def strReplace (s pat rep : String) : String :=
  String.mk (chReplaceFuel pat.toList rep.toList s.toList.length s.toList)

/-- Python truthiness of an optional string (`None` and `""` are falsy). -/
def optStrTruthy : Option String → Bool
  | none => false
  | some s => s ≠ ""

/-- Collapse a Python-falsy optional string to `none`. -/
def truthyOpt : Option String → Option String
  | none => none
  | some s => if s = "" then none else some s

/-! ### URL / path / quoted-text extraction
(the `re` patterns used in `execute_test_background`, server.py) -/

/-- Character class `[^\s<>"]` of the URL regex. -/
def isUrlChar (c : Char) : Bool :=
  !(isPySpace c || c = '<' || c = '>' || c = Char.ofNat 34)

/-- After a scheme of `n` characters, take the maximal non-empty run of URL
characters (the `[^\s<>"]+` part); fail when the run is empty. -/
def urlRunAt (n : Nat) (l : List Char) : Option (List Char) :=
  if ((l.drop n).takeWhile isUrlChar).isEmpty then none
  else some (l.take n ++ (l.drop n).takeWhile isUrlChar)

/-- Try to match `https?://[^\s<>"]+` anchored at the start of `l` (the
optional `s` is handled exactly as the backtracking regex engine does). -/
def tryUrlAt (l : List Char) : Option (List Char) :=
  if chStarts "https://".toList l then urlRunAt 8 l
  else if chStarts "http://".toList l then urlRunAt 7 l
  else none

/-- Leftmost match of `https?://[^\s<>"]+` (Python `re.search`). -/
def findUrlAux : List Char → Option (List Char)
  | [] => none
  | c :: cs =>
    match tryUrlAt (c :: cs) with
    | some u => some u
    | none => findUrlAux cs

/-- Python `re.search(r'https?://[^\s<>"]+', s)` from the navigation branch. -/
def findFullUrl (s : String) : Option String :=
  (findUrlAux s.toList).map String.mk

/-- Character class `[a-zA-Z0-9_-]` of the relative-path regex. -/
def isPathChar (c : Char) : Bool :=
  c.isAlpha || c.isDigit || c = '_' || c = '-'

/-- Try to match `/[a-zA-Z0-9_-]+` anchored at the start of `l`. -/
def tryPathAt : List Char → Option (List Char)
  | [] => none
  | c :: cs =>
    if c = '/' then
      if (cs.takeWhile isPathChar).isEmpty then none
      else some ('/' :: cs.takeWhile isPathChar)
    else none

/-- Leftmost match of the relative-path pattern. -/
def findPathAux : List Char → Option (List Char)
  | [] => none
  | c :: cs =>
    match tryPathAt (c :: cs) with
    | some p => some p
    | none => findPathAux cs

/-- Python `re.search(r'/[a-zA-Z0-9_-]+', s)` from the navigation branch. -/
def findRelPath (s : String) : Option String :=
  (findPathAux s.toList).map String.mk

/-- After a scheme of `n` characters, take the maximal non-empty run of
non-`/` characters (the `[^/]+` part of the base-URL regex). -/
def hostRunAt (n : Nat) (l : List Char) : Option String :=
  if ((l.drop n).takeWhile (fun c => !(c = '/'))).isEmpty then none
  else some (String.mk (l.take n ++ (l.drop n).takeWhile (fun c => !(c = '/'))))

/-- Python `re.match(r'(https?://[^/]+)', url)`: protocol plus host, anchored at the
start (used to memoize the base URL). -/
def matchBase (url : String) : Option String :=
  if chStarts "https://".toList url.toList then hostRunAt 8 url.toList
  else if chStarts "http://".toList url.toList then hostRunAt 7 url.toList
  else none

/-- Delimiters of the quoted-text regex: backquote, double quote, single
quote. -/
def isQuoteDelim (c : Char) : Bool :=
  c = Char.ofNat 96 || c = Char.ofNat 34 || c = Char.ofNat 39

/-- Try to match a quoted run (one delimiter, one or more non-delimiter
characters, one delimiter) anchored at the start; returns the inner group. -/
def tryQuotedAt : List Char → Option (List Char)
  | [] => none
  | c :: cs =>
    if isQuoteDelim c then
      let run := cs.takeWhile (fun d => !(isQuoteDelim d))
      if run.isEmpty then none
      else
        match cs.drop run.length with
        | d :: _ => if isQuoteDelim d then some run else none
        | [] => none
    else none

/-- Leftmost match of the quoted-text pattern. -/
def findQuotedAux : List Char → Option (List Char)
  | [] => none
  | c :: cs =>
    match tryQuotedAt (c :: cs) with
    | some r => some r
    | none => findQuotedAux cs

/-- The group of the first match of the click-target regex from the
rule-based parser. -/
def findQuoted (s : String) : Option String :=
  (findQuotedAux s.toList).map String.mk

/-! ### Step inputs (TestRail-shaped step dicts) -/

/-- One test step as fetched from the test-case source.  The optional dict
keys are fields; `raw` stands for Python `str(step)` used as a last-resort
text. -/
structure StepInput where
  content : String := ""
  description : String := ""
  step : String := ""
  expected : String := ""
  expected_result : String := ""
  raw : String := ""
deriving DecidableEq

/-- Alias chain `step.get("content","") or step.get("description","") or step.get("step","")
or str(step)` from `execute_test_background`. -/
def serverStepText (s : StepInput) : String :=
  if s.content ≠ "" then s.content
  else if s.description ≠ "" then s.description
  else if s.step ≠ "" then s.step
  else s.raw

/-- Alias chain `step.get("expected","") or step.get("expected_result","")`. -/
def serverExpected (s : StepInput) : String :=
  if s.expected ≠ "" then s.expected else s.expected_result

/-! ### Actions and parameters -/

/-- Parameter dict of an action; absent keys are `none`. -/
structure Params where
  url : Option String := none
  selector : Option String := none
  text : Option String := none
  value : Option String := none
  timeout : Option Nat := none
  wait_until : Option String := none
  headless : Option Bool := none
  browser_type : Option String := none
deriving DecidableEq

/-- Action dict produced by the rule-based parsing loop of
`execute_test_background`. -/
structure RAction where
  action : String
  params : Params
  description : String
  expected : String
deriving DecidableEq

/-! ### Rule-based step interpretation (server.py lines 400-506) -/

/-- URL resolution of the navigation branch: HTML link first, then a full
`http(s)://` URL in the raw step text, then a relative path (combined with
the base URL when one is set). -/
def resolveNavUrl (links : List String) (rawText cleanText : String)
    (base : Option String) : Option String :=
  match links with
  | l :: _ => some l
  | [] =>
    match findFullUrl rawText with
    | some u => some u
    | none =>
      match findRelPath cleanText with
      | some p =>
        if optStrTruthy base then some (rstripSlash (base.getD "") ++ p)
        else some p
      | none => none

/-- The placeholder `wait` action appended whenever no navigate or click can
be produced. -/
def waitRAction (cleanText expected : String) : RAction :=
  { action := "wait", params := { timeout := some 1000 },
    description := strTake cleanText 100, expected := expected }

/-- Test `"navigate" in clean_text.lower() or "open" in clean_text.lower() or
"go to" in clean_text.lower()`. -/
def navKeyword (cleanText : String) : Bool :=
  strIn "navigate" (strLower cleanText) || strIn "open" (strLower cleanText)
    || strIn "go to" (strLower cleanText)

/-- Test `"click" in clean_text.lower() or "select" in clean_text.lower()`. -/
def clickKeyword (cleanText : String) : Bool :=
  strIn "click" (strLower cleanText) || strIn "select" (strLower cleanText)

/-- The base-URL memoization attached to a successful navigation (server.py
lines 454-460): only when no base URL is set yet and the resolved URL starts
with `http` is the `protocol://host` prefix stored. -/
def navNewBase (base : Option String) (u : String) : Option String :=
  if !(optStrTruthy base) && strStarts u "http" then
    match matchBase u with
    | some b => some b
    | none => base
  else base

/-- One iteration of the rule-based parsing loop, given the HTML-stripped
visible text and extracted link targets of the step.  Returns the appended
action and the updated `base_url`. -/
def interpretRuleStep (cleanText : String) (links : List String)
    (rawText expected : String) (base : Option String) :
    RAction × Option String :=
  if navKeyword cleanText then
    match truthyOpt (resolveNavUrl links rawText cleanText base) with
    | some u =>
      ({ action := "navigate", params := { url := some u },
         description := strTake cleanText 100, expected := expected },
       navNewBase base u)
    | none => (waitRAction cleanText expected, base)
  else if clickKeyword cleanText then
    match findQuoted cleanText with
    | some t =>
      ({ action := "click", params := { text := some t },
         description := strTake cleanText 100, expected := expected }, base)
    | none => (waitRAction cleanText expected, base)
  else
    (waitRAction cleanText expected, base)

/-- The rule-based parsing loop over all steps.  `strip` models
`HTMLStripper.feed`: visible text (already joined and stripped) together with
the extracted `href` targets. -/
def interpretRuleSteps (strip : String → String × List String) :
    List StepInput → Option String → List RAction × Option String
  | [], base => ([], base)
  | s :: rest, base =>
    let stepText := serverStepText s
    let stripped := strip stepText
    let one := interpretRuleStep stripped.1 stripped.2 stepText (serverExpected s) base
    let more := interpretRuleSteps strip rest one.2
    (one.1 :: more.1, more.2)

/-! ### AI step interpretation (`AIInterpreter.interpret_multiple_steps`,
ai_interpreter.py lines 115-172) -/

/-- One entry of `context["previous_steps"]`. -/
structure PrevStep where
  step : Nat
  action : String
  description : String
deriving DecidableEq

/-- The shared interpretation context (`base_url`, `previous_steps`). -/
structure AContext where
  base_url : Option String := none
  previous_steps : List PrevStep := []
deriving DecidableEq

/-- The JSON object parsed from one per-step model response in
`interpret_step`. -/
structure AIRaw where
  action : String
  params : Params
  confidence : Rat := 0
  reasoning : String := ""
deriving DecidableEq

/-- One interpreted action as returned by `interpret_step` (response fields
plus `expected` and `original_step` stamped on afterwards). -/
structure AAction where
  action : String
  params : Params
  confidence : Rat
  reasoning : String
  expected : String
  original_step : String
deriving DecidableEq

/-- Alias chain `step.get("content","") or step.get("step","") or str(step)` from
`interpret_multiple_steps`. -/
def aiStepText (s : StepInput) : String :=
  if s.content ≠ "" then s.content
  else if s.step ≠ "" then s.step
  else s.raw

/-- Alias chain `step.get("expected","") or step.get("expected_result","")`. -/
def aiExpected (s : StepInput) : String :=
  if s.expected ≠ "" then s.expected else s.expected_result

/-- An AI call oracle: the outcome of `interpret_step`'s model round-trip for
a given step text, expected text and context (`none` models any call failure
or malformed output, in which case `interpret_step` returns `None`). -/
def AICall : Type := String → String → AContext → Option AIRaw

/-- The fallback action substituted when the per-step AI call fails. -/
def aiFallbackWait (s : StepInput) : AAction :=
  { action := "wait", params := { timeout := some 1000 }, confidence := 0,
    reasoning := "AI interpretation failed, fallback action",
    expected := aiExpected s, original_step := aiStepText s }

/-- The base-URL memoization of the AI loop (ai_interpreter.py lines
141-150): when the interpreted action is a navigation and no base URL is set
yet, store the `protocol://host` prefix of an absolute URL. -/
def aiCtxAfterNav (ctx : AContext) (r : AIRaw) : AContext :=
  if r.action = "navigate" && !(optStrTruthy ctx.base_url) then
    if strStarts (r.params.url.getD "") "http" then
      match matchBase (r.params.url.getD "") with
      | some b => { ctx with base_url := some b }
      | none => ctx
    else ctx
  else ctx

/-- One iteration of the `interpret_multiple_steps` loop: interpret the step,
memoize the base URL from the first absolute navigation, extend
`previous_steps`, or substitute the fallback `wait` on failure. -/
def interpretOneStep (ai : AICall) (ctx : AContext) (idx : Nat)
    (s : StepInput) : AAction × AContext :=
  match ai (aiStepText s) (aiExpected s) ctx with
  | some r =>
    ({ action := r.action, params := r.params, confidence := r.confidence,
       reasoning := r.reasoning, expected := aiExpected s,
       original_step := aiStepText s },
     { aiCtxAfterNav ctx r with
         previous_steps := (aiCtxAfterNav ctx r).previous_steps ++
           [{ step := idx + 1, action := r.action,
              description := strTake (aiStepText s) 50 }] })
  | none => (aiFallbackWait s, ctx)

/-- The loop body of `interpret_multiple_steps` over the remaining steps. -/
def interpretStepsAux (ai : AICall) (ctx : AContext) (idx : Nat) :
    List StepInput → List AAction × AContext
  | [] => ([], ctx)
  | s :: rest =>
    let one := interpretOneStep ai ctx idx s
    let more := interpretStepsAux ai one.2 (idx + 1) rest
    (one.1 :: more.1, more.2)

/-- Function `interpret_multiple_steps` (enabled case): resets `previous_steps` and
folds over the steps. -/
def interpretMultipleSteps (ai : AICall) (steps : List StepInput)
    (ctx : AContext) : List AAction × AContext :=
  interpretStepsAux ai { ctx with previous_steps := [] } 0 steps

/-- The orchestrator's strategy choice (server.py lines 364-380): the AI
result is used iff the interpreter is enabled and returned a non-empty list;
otherwise the rule-based loop runs for the whole sequence. -/
def aiBranchTaken (enabled : Bool) (ai : AICall) (steps : List StepInput) : Bool :=
  enabled && !(interpretMultipleSteps ai steps {}).1.isEmpty

/-! ### Validation fallbacks (`AIInterpreter.validate_expected_result` and
`ValidationService._simple_validation`) -/

/-- A validation result dict. -/
structure VRes where
  passed : Bool
  confidence : Rat
  message : String
  reasoning : String
deriving DecidableEq

/-- Behaviour of `validate_expected_result` when the AI interpreter is disabled
(ai_interpreter.py lines 192-203): case-insensitive substring containment of
the stripped expected text in the stripped page text, confidence 0.5 when
found and 0.3 when not. -/
def validateFallbackDisabled (expected_result page_content : String) : VRes :=
  let passed := strIn (strLower (strStrip expected_result))
    (strLower (strStrip page_content))
  { passed := passed,
    confidence := if passed then 1/2 else 3/10,
    message := if passed then "Expected result validated successfully"
      else "Expected result not found: " ++ strTake expected_result 100,
    reasoning := "Rule-based validation (simple substring match)" }

/-- Behaviour of `validate_expected_result` when the AI call raised
(ai_interpreter.py lines 273-285): same substring judgment, but confidence is
0.3 whether or not the text was found. -/
def validateFallbackOnError (expected_result page_content errMsg : String) : VRes :=
  let passed := strIn (strLower (strStrip expected_result))
    (strLower (strStrip page_content))
  { passed := passed,
    confidence := 3/10,
    message := "AI validation error, used fallback: " ++ errMsg,
    reasoning := "Fallback to substring match due to AI error" }

/-- Function `ValidationService._simple_validation` (validation_service.py lines
103-130): case-insensitive substring containment, confidence 0.8 whether or
not the text was found. -/
def simpleValidation (expected_text page_content : String) : VRes :=
  let passed := strIn (strLower expected_text) (strLower page_content)
  if passed then
    { passed := true, confidence := 4/5,
      message := "Found: " ++ expected_text,
      reasoning := "Simple substring match" }
  else
    { passed := false, confidence := 4/5,
      message := "Not found: " ++ expected_text,
      reasoning := "Simple substring match failed" }

/-! ### Step status determination (server.py lines 544-549 and 621-628) -/

/-- Recorded status of one executed step: validation is required iff the raw
expected text is truthy and strips to a truthy string; with validation the
status follows the validation verdict, without it the execution success flag
(a missing flag counts as failure). -/
def stepStatus (expected_result : String) (validationPassed : Bool)
    (execSuccess : Option Bool) : String :=
  if expected_result ≠ "" ∧ strStrip expected_result ≠ "" then
    if validationPassed then "PASSED" else "FAILED"
  else
    if execSuccess = some true then "PASSED" else "FAILED"

/-! ### Fetch stage (server.py lines 310-356) -/

/-- The test-case dict returned by the TestRail handler with the historical
step-list aliases. -/
structure TestRailCase where
  title : String := ""
  custom_steps_separated : List StepInput := []
  custom_steps : List StepInput := []
  steps : List StepInput := []
deriving DecidableEq

/-- Outcome of `agent.handle("testrail", ...)`: a test-case dict, a dict
carrying an `error` key, or no response. -/
inductive FetchResponse where
  | ok (tc : TestRailCase)
  | withError (msg : String)
  | noResponse
deriving DecidableEq

/-- Alias chain `custom_steps_separated or custom_steps or steps or []`. -/
def extractSteps (tc : TestRailCase) : List StepInput :=
  if tc.custom_steps_separated ≠ [] then tc.custom_steps_separated
  else if tc.custom_steps ≠ [] then tc.custom_steps
  else tc.steps

/-- The dummy step created when the fetched test case has no steps. -/
def dummyStep : StepInput :=
  { content := "Default step - no steps found in TestRail" }

/-- The fetching stage: an error response or no response raises (propagating
to the run-level `except` handler, i.e. the ERROR path); a successful fetch
with no steps under any alias proceeds with a single dummy step. -/
def fetchStage (r : FetchResponse) : Except String (String × List StepInput) :=
  match r with
  | .withError msg => .error ("Failed to fetch test case: " ++ msg)
  | .noResponse => .error "Failed to fetch test case: No response from TestRail"
  | .ok tc =>
    let steps := extractSteps tc
    let steps := if steps = [] then [dummyStep] else steps
    .ok (tc.title, steps)

/-! ### Playwright browser session (handler.py) -/

/-- The class-level session state of `PlaywrightHandler`: each handle is
`none` until created; `counter` supplies fresh handle identities so that two
launches are never the identical object. -/
structure PwState where
  counter : Nat := 0
  playwright : Option Nat := none
  browser : Option Nat := none
  context : Option Nat := none
  page : Option Nat := none
  screenshot_dir : Option Nat := none
  is_headless : Bool := true
deriving DecidableEq

/-- Method `initialize_browser` (handler.py lines 71-109): each component is created
only when still `None`; `_is_headless` is recorded only when the browser is
actually launched. -/
def initBrowser (st : PwState) (headless : Bool) (browser_type : String) : PwState :=
  let st1 :=
    if st.playwright.isNone then
      { st with playwright := some st.counter, counter := st.counter + 1 }
    else st
  let st2 :=
    if st1.browser.isNone then
      { st1 with
          is_headless := headless
          browser := some st1.counter
          counter := st1.counter + 1 }
    else st1
  -- the branch on browser_type launches chromium, firefox, webkit or
  -- chromium again; all arms allocate exactly one browser handle
  let _ := browser_type
  let st3 :=
    if st2.context.isNone then
      { st2 with context := some st2.counter, counter := st2.counter + 1 }
    else st2
  let st4 :=
    if st3.page.isNone then
      { st3 with page := some st3.counter, counter := st3.counter + 1 }
    else st3
  if st4.screenshot_dir.isNone then
    { st4 with screenshot_dir := some st4.counter, counter := st4.counter + 1 }
  else st4

/-- The session is fully set up: playwright, browser, context, page and
screenshot directory all exist. -/
def fullyInit (st : PwState) : Bool :=
  st.playwright.isSome && st.browser.isSome && st.context.isSome &&
    st.page.isSome && st.screenshot_dir.isSome

/-- Method `take_screenshot` (handler.py lines 146-159): a `<name>.png` path inside
the run directory when page and directory exist, `""` otherwise.  The
`HHMMSS` timestamp part of the filename is not modelled. -/
def takeScreenshot (st : PwState) (step_name : String) : String :=
  if st.page.isSome && st.screenshot_dir.isSome then
    strReplace step_name " " "_" ++ ".png"
  else ""

/-- The screenshot step name of the navigate branch. -/
def navStepName (url : String) : String :=
  "navigate_to_" ++ strReplace (strReplace url "://" "_") "/" "_"

/-- Observable browser primitives issued by `execute_action`, in order. -/
inductive PwEvent where
  | gotoCall (url wait_until : String) (timeout : Nat)
  | loadState (state : String) (timeout : Nat)
  | waitMs (ms : Nat)
  | shot (name : String)
deriving DecidableEq

/-- The result dict of one `execute_action` call; only the keys the claims
talk about are modelled (dynamic keys such as `timestamp`, `title` and
`current_url` are elided). -/
structure ExecResult where
  success : Option Bool := none
  error : Option String := none
  action : Option String := none
  url : Option String := none
  screenshot : Option String := none
deriving DecidableEq

/-- Which fallible browser primitives succeed during one call: the initial
`page.goto(..., networkidle, 30s)` block, the
`wait_for_load_state("domcontentloaded", 10s)` fallback, and the primitive of
a non-navigate action. -/
structure PwEnv where
  gotoOk : Bool
  domOk : Bool
  actionOk : Bool := true
deriving DecidableEq

/-- The navigate branch of `execute_action` (handler.py lines 175-214):
network-idle with 30s timeout, then dom-content-loaded with 10s timeout, then
a fixed 1000ms delay; a screenshot is captured and `success: True` returned
whichever tier ends the wait. -/
def navigateBranch (env : PwEnv) (st : PwState) (params : Params)
    (url : String) : List PwEvent × ExecResult :=
  let wu := params.wait_until.getD "networkidle"
  let name := navStepName url
  let events :=
    if env.gotoOk then
      [PwEvent.gotoCall url wu 30000, PwEvent.waitMs 500, PwEvent.shot name]
    else if env.domOk then
      [PwEvent.gotoCall url wu 30000, PwEvent.loadState "domcontentloaded" 10000,
       PwEvent.waitMs 500, PwEvent.shot name]
    else
      [PwEvent.gotoCall url wu 30000, PwEvent.loadState "domcontentloaded" 10000,
       PwEvent.waitMs 1000, PwEvent.shot name]
  (events,
   { success := some true, action := some "navigate", url := some url,
     screenshot := some (takeScreenshot st name) })

/-- A generic primitive action body after its parameter checks: on success a
screenshot and a `success: True` dict, on timeout the outer except handler's
error dict with an error screenshot (handler.py lines 652-659). -/
def primitiveBranch (env : PwEnv) (st : PwState) (action step_name : String) :
    List PwEvent × ExecResult :=
  if env.actionOk then
    ([PwEvent.shot step_name],
     { success := some true, action := some action,
       screenshot := some (takeScreenshot st step_name) })
  else
    ([PwEvent.shot ("timeout_error_" ++ action)],
     { error := some ("Timeout error during " ++ action),
       screenshot := some (takeScreenshot st ("timeout_error_" ++ action)) })

/-- Method `execute_action` for the actions the claims concern (navigate, click,
fill, type, select): lazy initialization first, then the per-action required
parameter checks, then the action body.  A failed parameter check returns a
dict holding only an `error` key. -/
def executeAction (env : PwEnv) (st : PwState) (action : String)
    (params : Params) : PwState × List PwEvent × ExecResult :=
  let st := if action ≠ "close_browser" then
      initBrowser st (params.headless.getD true) (params.browser_type.getD "chromium")
    else st
  if action = "navigate" then
    match truthyOpt params.url with
    | none => (st, [], { error := some "url is required for navigate action" })
    | some url => (st, navigateBranch env st params url)
  else if action = "click" then
    if !(optStrTruthy params.selector) && !(optStrTruthy params.text) then
      (st, [], { error := some "Either selector or text is required for click action" })
    else
      (st, primitiveBranch env st "click" "click_target")
  else if action = "fill" then
    if !(optStrTruthy params.selector) then
      (st, [], { error := some "selector is required for fill action" })
    else
      (st, primitiveBranch env st "fill" "fill_target")
  else if action = "type" then
    if !(optStrTruthy params.selector) then
      (st, [], { error := some "selector is required for type action" })
    else
      (st, primitiveBranch env st "type" "type_target")
  else if action = "select" then
    if !(optStrTruthy params.selector) || !(optStrTruthy params.value) then
      (st, [], { error := some "selector and value are required for select action" })
    else
      (st, primitiveBranch env st "select" "select_target")
  else
    (st, [], { error := some ("Unknown action: " ++ action) })

/-! ### Helper lemmas -/

theorem mk_eq_empty {l : List Char} (h : String.mk l = "") : l = [] := by
  have := congrArg String.data h
  simpa using this

theorem append_ne_empty_right (a : String) {b : String} (hb : b ≠ "") :
    a ++ b ≠ "" := by
  obtain ⟨x⟩ := a
  obtain ⟨y⟩ := b
  intro h
  have h2 : x ++ y = ([] : List Char) := by
    have := congrArg String.data h
    simpa using this
  rcases List.append_eq_nil.mp h2 with ⟨-, h4⟩
  exact hb (by rw [h4])

theorem truthyOpt_some {u : String} (hu : u ≠ "") : truthyOpt (some u) = some u := by
  simp [truthyOpt, hu]

theorem truthyOpt_ne {o : Option String} {u : String} (h : truthyOpt o = some u) :
    u ≠ "" := by
  cases o with
  | none => simp [truthyOpt] at h
  | some s =>
    by_cases hs : s = ""
    · simp [truthyOpt, hs] at h
    · simp [truthyOpt, hs] at h
      exact h ▸ hs

theorem urlRunAt_ne_nil {n : Nat} {l v : List Char} (h : urlRunAt n l = some v) :
    v ≠ [] := by
  unfold urlRunAt at h
  split at h
  · cases h
  · cases h
    intro hv
    rcases List.append_eq_nil.mp hv with ⟨-, h4⟩
    rename_i hrun
    rw [h4] at hrun
    simp at hrun

theorem tryUrlAt_ne_nil {l v : List Char} (h : tryUrlAt l = some v) : v ≠ [] := by
  unfold tryUrlAt at h
  split at h
  · exact urlRunAt_ne_nil h
  · split at h
    · exact urlRunAt_ne_nil h
    · cases h

theorem findUrlAux_ne_nil : ∀ {l u : List Char}, findUrlAux l = some u → u ≠ [] := by
  intro l
  induction l with
  | nil => intro u h; simp [findUrlAux] at h
  | cons c cs ih =>
    intro u h
    unfold findUrlAux at h
    cases htry : tryUrlAt (c :: cs) with
    | some v =>
      rw [htry] at h
      cases h
      exact tryUrlAt_ne_nil htry
    | none =>
      rw [htry] at h
      exact ih h

theorem findFullUrl_ne_empty {s u : String} (h : findFullUrl s = some u) : u ≠ "" := by
  unfold findFullUrl at h
  cases haux : findUrlAux s.toList with
  | none => rw [haux] at h; cases h
  | some v =>
    rw [haux] at h
    cases h
    intro hu
    exact findUrlAux_ne_nil haux (mk_eq_empty hu)

theorem tryPathAt_ne_nil {l v : List Char} (h : tryPathAt l = some v) : v ≠ [] := by
  unfold tryPathAt at h
  split at h
  · cases h
  · split at h
    · split at h
      · cases h
      · cases h
        simp
    · cases h

theorem hostRunAt_ne_empty {n : Nat} {l : List Char} {b : String}
    (h : hostRunAt n l = some b) : b ≠ "" := by
  unfold hostRunAt at h
  split at h
  · cases h
  · cases h
    intro hb
    have h2 := mk_eq_empty hb
    rcases List.append_eq_nil.mp h2 with ⟨-, h4⟩
    rename_i hrun
    rw [h4] at hrun
    simp at hrun

theorem matchBase_ne_empty {u b : String} (h : matchBase u = some b) : b ≠ "" := by
  unfold matchBase at h
  split at h
  · exact hostRunAt_ne_empty h
  · split at h
    · exact hostRunAt_ne_empty h
    · cases h

theorem findPathAux_ne_nil : ∀ {l u : List Char}, findPathAux l = some u → u ≠ [] := by
  intro l
  induction l with
  | nil => intro u h; simp [findPathAux] at h
  | cons c cs ih =>
    intro u h
    unfold findPathAux at h
    cases htry : tryPathAt (c :: cs) with
    | some v =>
      rw [htry] at h
      cases h
      exact tryPathAt_ne_nil htry
    | none =>
      rw [htry] at h
      exact ih h

theorem findRelPath_ne_empty {s p : String} (h : findRelPath s = some p) : p ≠ "" := by
  unfold findRelPath at h
  cases haux : findPathAux s.toList with
  | none => rw [haux] at h; cases h
  | some v =>
    rw [haux] at h
    cases h
    intro hp
    exact findPathAux_ne_nil haux (mk_eq_empty hp)

theorem fullyInit_initBrowser (st : PwState) (headless : Bool) (bt : String) :
    fullyInit (initBrowser st headless bt) = true := by
  obtain ⟨cnt, p, b, c, pg, sd, hd⟩ := st
  cases p <;> cases b <;> cases c <;> cases pg <;> cases sd <;>
    simp [initBrowser, fullyInit]

theorem takeScreenshot_ne {st : PwState} (h : fullyInit st = true) (n : String) :
    takeScreenshot st n ≠ "" := by
  unfold fullyInit at h
  simp only [Bool.and_eq_true] at h
  unfold takeScreenshot
  rw [if_pos (by simp [h.1.2, h.2])]
  exact append_ne_empty_right _ (by decide)

/-! ### Claim C5: step status determination -/

/-- C5: a recorded step is PASSED iff either validation was required (the raw
expected text strips to a non-empty string) and the validation verdict was
`passed=true`, or no validation was required and the execution result
reported `success=true`; in particular a passing validation makes the step
PASSED regardless of the execution success flag. -/
theorem step_status_determination (e : String) (vp : Bool) (es : Option Bool) :
    stepStatus e vp es = "PASSED" ↔
      ((strStrip e ≠ "" ∧ vp = true) ∨ (strStrip e = "" ∧ es = some true)) := by
  have hPF : ("FAILED" : String) ≠ "PASSED" := by decide
  unfold stepStatus
  by_cases hs : strStrip e = ""
  · have hguard : ¬(e ≠ "" ∧ strStrip e ≠ "") := fun hg => hg.2 hs
    rw [if_neg hguard]
    by_cases hes : es = some true
    · rw [if_pos hes]
      simp [hs, hes]
    · rw [if_neg hes]
      simp [hs, hes, hPF]
  · have he0 : e ≠ "" := by
      intro h0
      exact hs (by rw [h0]; rfl)
    rw [if_pos ⟨he0, hs⟩]
    cases vp with
    | true => simp [hs]
    | false => simp [hs, hPF]

/-! ### Claim C9: browser initialization is idempotent -/

/-- C9: calling `initialize_browser` on an already fully-initialized session
changes nothing — the playwright handle, browser, context, page and
screenshot directory (and the whole state) are identical afterwards,
whatever configuration the second call passes. -/
theorem init_browser_idempotent (st : PwState) (h : fullyInit st = true)
    (headless : Bool) (bt : String) : initBrowser st headless bt = st := by
  obtain ⟨cnt, p, b, c, pg, sd, hd⟩ := st
  simp only [fullyInit, Bool.and_eq_true, Option.isSome_iff_exists] at h
  obtain ⟨⟨⟨⟨⟨x1, h1⟩, x2, h2⟩, x3, h3⟩, x4, h4⟩, x5, h5⟩ := h
  subst h1 h2 h3 h4 h5
  simp [initBrowser]

/-- Closed instance of C9: a second `initialize_browser` call with different
configuration leaves the session of the first call unchanged. -/
theorem init_browser_idempotent_witness :
    fullyInit (initBrowser {} true "chromium") = true ∧
      initBrowser (initBrowser {} true "chromium") false "firefox" =
        initBrowser {} true "chromium" :=
  ⟨by decide, init_browser_idempotent _ (by decide) false "firefox"⟩

/-! ### Claim C6: behaviour of the fetching stage -/

/-- C6 counterexample: when the test-case source call errors, the fetching
stage raises (the run goes to the ERROR path) instead of synthesizing a
placeholder step — no step list is produced at all. -/
theorem fetch_error_counterexample :
    fetchStage (FetchResponse.withError "boom") =
        Except.error "Failed to fetch test case: boom" ∧
      (fetchStage (FetchResponse.withError "boom")).toOption = none :=
  ⟨rfl, rfl⟩

/-- C6 amended: an error (or missing) response from the test-case source
aborts to the ERROR path; only a successful fetch whose step-list aliases are
all empty is given a single synthesized placeholder step (so the run proceeds
with `total_steps = 1`). -/
theorem fetch_stage_behaviour :
    (∀ msg, fetchStage (FetchResponse.withError msg) =
      Except.error ("Failed to fetch test case: " ++ msg)) ∧
    fetchStage FetchResponse.noResponse =
      Except.error "Failed to fetch test case: No response from TestRail" ∧
    (∀ tc : TestRailCase, extractSteps tc = [] →
      fetchStage (FetchResponse.ok tc) = Except.ok (tc.title, [dummyStep])) ∧
    ([dummyStep] : List StepInput).length = 1 := by
  refine ⟨fun msg => rfl, rfl, fun tc h => ?_, rfl⟩
  simp [fetchStage, h]

/-- Closed instance of C6 (amended): a fetch succeeding with no steps yields
exactly the one placeholder step. -/
theorem fetch_stage_behaviour_witness :
    extractSteps {} = [] ∧
      fetchStage (FetchResponse.ok {}) = Except.ok ("", [dummyStep]) :=
  ⟨rfl, fetch_stage_behaviour.2.2.1 {} rfl⟩

/-! ### Claim C7: fallback validation judgment and confidences -/

/-- The contract of the three non-AI validation entry points: all three judge
by case-insensitive substring containment, but only the AI-disabled entry
point uses confidence 0.5/0.3; the AI-error fallback always reports 0.3 and
`_simple_validation` always reports 0.8. -/
def fallbackValidationContract (expected page : String) : Prop :=
  ((validateFallbackDisabled expected page).passed =
      strIn (strLower (strStrip expected)) (strLower (strStrip page)) ∧
    (validateFallbackDisabled expected page).confidence =
      (if strIn (strLower (strStrip expected)) (strLower (strStrip page)) then
        (1 : Rat)/2 else 3/10)) ∧
  (∀ errMsg,
    (validateFallbackOnError expected page errMsg).passed =
      strIn (strLower (strStrip expected)) (strLower (strStrip page)) ∧
    (validateFallbackOnError expected page errMsg).confidence = 3/10) ∧
  ((simpleValidation expected page).passed =
      strIn (strLower expected) (strLower page) ∧
    (simpleValidation expected page).confidence = 4/5)

/-- C7 counterexample: on the AI-call-failure fallback a found expected text
yields `passed=true` with confidence 0.3, not 0.5; and the service-level
simple validation reports 0.8, not 0.5, on a match. -/
theorem fallback_confidence_counterexample :
    (validateFallbackOnError "abc" "xyz abc" "boom").passed = true ∧
      (validateFallbackOnError "abc" "xyz abc" "boom").confidence ≠ 1/2 ∧
      (simpleValidation "abc" "xyz abc").passed = true ∧
      (simpleValidation "abc" "xyz abc").confidence ≠ 1/2 := by
  refine ⟨by decide, ?_, by decide, ?_⟩
  · show (3 : Rat)/10 ≠ 1/2
    norm_num
  · show (4 : Rat)/5 ≠ 1/2
    norm_num

/-- C7 amended: every non-AI validation entry point judges by
case-insensitive substring containment; the 0.5-if-found / 0.3-if-not
confidences hold only for the AI-disabled entry point, while the
AI-call-failure fallback reports confidence 0.3 regardless of outcome and
`_simple_validation` reports 0.8 regardless of outcome. -/
theorem fallback_validation_contract (expected page : String)
    (_h1 : expected ≠ "") (_h2 : page ≠ "") :
    fallbackValidationContract expected page := by
  refine ⟨⟨rfl, rfl⟩, fun errMsg => ⟨rfl, rfl⟩, ?_⟩
  rcases Bool.eq_false_or_eq_true (strIn (strLower expected) (strLower page)) with hp | hp <;>
    simp [simpleValidation, hp]

/-- Closed instance of C7 (amended) at non-empty inputs. -/
theorem fallback_validation_contract_witness :
    ("a" : String) ≠ "" ∧ ("ba" : String) ≠ "" ∧
      fallbackValidationContract "a" "ba" :=
  ⟨by decide, by decide, fallback_validation_contract "a" "ba" (by decide) (by decide)⟩

/-! ### Claim C8: missing required parameters -/

/-- The contract of the per-action required-parameter checks: the result dict
holds only the `error` message (no `success` key at all), the handler returns
normally, and the session is left lazily initialized, never torn down. -/
def missingParamContract (env : PwEnv) (st : PwState) (params : Params) : Prop :=
  (truthyOpt params.url = none →
    executeAction env st "navigate" params =
      (initBrowser st (params.headless.getD true) (params.browser_type.getD "chromium"),
       [], { error := some "url is required for navigate action" })) ∧
  (optStrTruthy params.selector = false → optStrTruthy params.text = false →
    executeAction env st "click" params =
      (initBrowser st (params.headless.getD true) (params.browser_type.getD "chromium"),
       [], { error := some "Either selector or text is required for click action" })) ∧
  (optStrTruthy params.selector = false →
    executeAction env st "fill" params =
      (initBrowser st (params.headless.getD true) (params.browser_type.getD "chromium"),
       [], { error := some "selector is required for fill action" })) ∧
  (optStrTruthy params.selector = false →
    executeAction env st "type" params =
      (initBrowser st (params.headless.getD true) (params.browser_type.getD "chromium"),
       [], { error := some "selector is required for type action" })) ∧
  ((optStrTruthy params.selector = false ∨ optStrTruthy params.value = false) →
    executeAction env st "select" params =
      (initBrowser st (params.headless.getD true) (params.browser_type.getD "chromium"),
       [], { error := some "selector and value are required for select action" })) ∧
  fullyInit (initBrowser st (params.headless.getD true)
    (params.browser_type.getD "chromium")) = true

/-- C8 counterexample: the result of a navigate call without a url has no
`success` key at all (so it is not the claimed `{success: false, ...}`
shape), and the select message is a combined "are required" sentence rather
than the claimed per-parameter template. -/
theorem missing_param_shape_counterexample :
    (executeAction ⟨true, true, true⟩ {} "navigate" {}).2.2.success = none ∧
      (executeAction ⟨true, true, true⟩ {} "navigate" {}).2.2.error =
        some "url is required for navigate action" ∧
      ¬((executeAction ⟨true, true, true⟩ {} "navigate" {}).2.2.success = some false) ∧
      (executeAction ⟨true, true, true⟩ {} "select"
          { selector := some "#dd" }).2.2.error =
        some "selector and value are required for select action" := by
  refine ⟨by decide, by decide, by decide, by decide⟩

/-- C8 amended: a missing required parameter produces a normally-returned
result dict carrying only a descriptive `error` message (consumers reading
`success` get a falsy missing value); the session survives, left in its
lazily-initialized state. -/
theorem missing_param_results (env : PwEnv) (st : PwState) (params : Params) :
    missingParamContract env st params := by
  refine ⟨?_, ?_, ?_, ?_, ?_, fullyInit_initBrowser st _ _⟩
  · intro h
    unfold executeAction
    rw [h]
    rfl
  · intro hsel htext
    unfold executeAction
    rw [hsel, htext]
    rfl
  · intro hsel
    unfold executeAction
    rw [hsel]
    rfl
  · intro hsel
    unfold executeAction
    rw [hsel]
    rfl
  · intro h
    unfold executeAction
    rcases h with h | h
    · rw [h]
      rcases Bool.eq_false_or_eq_true (optStrTruthy params.value) with hv | hv <;> rw [hv] <;> rfl
    · rw [h]
      rcases Bool.eq_false_or_eq_true (optStrTruthy params.selector) with hs | hs <;> rw [hs] <;> rfl

/-- Closed instance of C8 (amended). -/
theorem missing_param_results_witness : missingParamContract ⟨true, true, true⟩ {} {} :=
  missing_param_results ⟨true, true, true⟩ {} {}

/-! ### Claim C3: the rule-based pass is one action per step -/

theorem interpretRuleSteps_length (strip : String → String × List String)
    (steps : List StepInput) :
    ∀ base, (interpretRuleSteps strip steps base).1.length = steps.length := by
  induction steps with
  | nil => intro base; rfl
  | cons s rest ih =>
    intro base
    simp only [interpretRuleSteps, List.length_cons]
    rw [ih]

/-- C3: on the rule-based interpretation path every step contributes exactly
one action (navigate, click, or placeholder wait), so for a non-empty step
list the produced action list has the same length as the step list. -/
theorem rule_based_action_count (strip : String → String × List String)
    (steps : List StepInput) (_h : steps ≠ []) :
    (interpretRuleSteps strip steps none).1.length = steps.length :=
  interpretRuleSteps_length strip steps none

/-- Closed instance of C3 on a one-step list. -/
theorem rule_based_action_count_witness :
    ([({ content := "Mystery step" } : StepInput)] ≠ []) ∧
      (interpretRuleSteps (fun s => (s, []))
        [{ content := "Mystery step" }] none).1.length =
        [({ content := "Mystery step" } : StepInput)].length :=
  ⟨by decide, rule_based_action_count _ _ (by decide)⟩

/-! ### Claim C4: the base URL is set at most once and never overwritten -/

theorem navNewBase_preserved {b : String} (hb : b ≠ "") (u : String) :
    navNewBase (some b) u = some b := by
  have ht : optStrTruthy (some b) = true := by simp [optStrTruthy, hb]
  simp [navNewBase, ht]

theorem navNewBase_set {u b : String} (h : navNewBase none u = some b) :
    strStarts u "http" = true ∧ matchBase u = some b := by
  unfold navNewBase at h
  by_cases hs : strStarts u "http" = true
  · refine ⟨hs, ?_⟩
    simp only [optStrTruthy, Bool.not_false, Bool.true_and, hs, if_pos] at h
    cases hm : matchBase u with
    | none => rw [hm] at h; cases h
    | some b2 => rw [hm] at h; cases h; rfl
  · exfalso
    have hs2 : strStarts u "http" = false := by
      cases hq : strStarts u "http" with
      | true => exact absurd hq hs
      | false => rfl
    simp only [optStrTruthy, Bool.not_false, Bool.true_and, hs2, if_neg] at h
    cases h

theorem interpretRuleStep_base_preserved (clean : String) (links : List String)
    (raw exp b : String) (hb : b ≠ "") :
    (interpretRuleStep clean links raw exp (some b)).2 = some b := by
  unfold interpretRuleStep
  by_cases hn : navKeyword clean = true
  · rw [if_pos hn]
    cases truthyOpt (resolveNavUrl links raw clean (some b)) with
    | none => rfl
    | some u => exact navNewBase_preserved hb u
  · rw [if_neg hn]
    by_cases hc : clickKeyword clean = true
    · rw [if_pos hc]
      cases findQuoted clean <;> rfl
    · rw [if_neg hc]

theorem interpretRuleSteps_base_preserved (strip : String → String × List String)
    (steps : List StepInput) :
    ∀ b : String, b ≠ "" → (interpretRuleSteps strip steps (some b)).2 = some b := by
  induction steps with
  | nil => intro b _; rfl
  | cons s rest ih =>
    intro b hb
    show (interpretRuleSteps strip rest
      (interpretRuleStep (strip (serverStepText s)).1 (strip (serverStepText s)).2
        (serverStepText s) (serverExpected s) (some b)).2).2 = some b
    rw [interpretRuleStep_base_preserved _ _ _ _ b hb]
    exact ih b hb

theorem aiCtxAfterNav_preserved (ctx : AContext) (r : AIRaw) {b : String}
    (hb : b ≠ "") (hc : ctx.base_url = some b) : aiCtxAfterNav ctx r = ctx := by
  have ht : optStrTruthy ctx.base_url = true := by rw [hc]; simp [optStrTruthy, hb]
  simp [aiCtxAfterNav, ht]

theorem interpretOneStep_base_preserved (ai : AICall) (ctx : AContext) (idx : Nat)
    (s : StepInput) (b : String) (hb : b ≠ "") (hc : ctx.base_url = some b) :
    (interpretOneStep ai ctx idx s).2.base_url = some b := by
  unfold interpretOneStep
  cases ai (aiStepText s) (aiExpected s) ctx with
  | none => exact hc
  | some r =>
    show (aiCtxAfterNav ctx r).base_url = some b
    rw [aiCtxAfterNav_preserved ctx r hb hc]
    exact hc

theorem interpretStepsAux_base_preserved (ai : AICall) (steps : List StepInput) :
    ∀ (ctx : AContext) (idx : Nat) (b : String), b ≠ "" → ctx.base_url = some b →
      (interpretStepsAux ai ctx idx steps).2.base_url = some b := by
  induction steps with
  | nil => intro ctx idx b _ hc; exact hc
  | cons s rest ih =>
    intro ctx idx b hb hc
    show (interpretStepsAux ai (interpretOneStep ai ctx idx s).2 (idx + 1) rest).2.base_url = some b
    exact ih _ _ b hb (interpretOneStep_base_preserved ai ctx idx s b hb hc)

theorem aiCtxAfterNav_set (ctx : AContext) (r : AIRaw) (hc : ctx.base_url = none)
    (b : String) (h : (aiCtxAfterNav ctx r).base_url = some b) :
    r.action = "navigate" ∧ strStarts (r.params.url.getD "") "http" = true ∧
      matchBase (r.params.url.getD "") = some b := by
  unfold aiCtxAfterNav at h
  by_cases hact : r.action = "navigate"
  · have hcond : (decide (r.action = "navigate") && !(optStrTruthy ctx.base_url)) = true := by
      simp [hact, hc, optStrTruthy]
    rw [if_pos hcond] at h
    by_cases hs : strStarts (r.params.url.getD "") "http" = true
    · rw [if_pos hs] at h
      refine ⟨hact, hs, ?_⟩
      cases hm : matchBase (r.params.url.getD "") with
      | none =>
        rw [hm] at h
        rw [hc] at h
        cases h
      | some b2 =>
        rw [hm] at h
        have h4 : some b2 = some b := h
        cases h4
        rfl
    · rw [if_neg hs] at h
      rw [hc] at h
      cases h
  · have hcond : ¬((decide (r.action = "navigate") && !(optStrTruthy ctx.base_url)) = true) := by
      simp [hact]
    rw [if_neg hcond] at h
    rw [hc] at h
    cases h

theorem interpretRuleStep_base_set_shape (clean : String) (links : List String)
    (raw exp b : String)
    (h : (interpretRuleStep clean links raw exp none).2 = some b) :
    ∃ u, truthyOpt (resolveNavUrl links raw clean none) = some u ∧
      strStarts u "http" = true ∧ matchBase u = some b ∧
      (interpretRuleStep clean links raw exp none).1 =
        { action := "navigate", params := { url := some u },
          description := strTake clean 100, expected := exp } := by
  unfold interpretRuleStep at h ⊢
  by_cases hn : navKeyword clean = true
  · rw [if_pos hn] at h ⊢
    cases htu : truthyOpt (resolveNavUrl links raw clean none) with
    | none => rw [htu] at h; cases h
    | some u =>
      rw [htu] at h
      have h2 : navNewBase none u = some b := h
      obtain ⟨hs, hm⟩ := navNewBase_set h2
      exact ⟨u, rfl, hs, hm, rfl⟩
  · rw [if_neg hn] at h
    by_cases hc : clickKeyword clean = true
    · rw [if_pos hc] at h
      cases hq : findQuoted clean <;> rw [hq] at h <;> cases h
    · rw [if_neg hc] at h
      cases h

/-- C4: within one shared interpretation context, once `base_url` is set it
is never overwritten, on the rule-based path and on the AI path alike; and on
both paths the only way an unset `base_url` becomes set is by a navigate
action whose resolved URL starts with `http`, as the `protocol://host` prefix
of that URL. -/
theorem base_url_set_once :
    (∀ (strip : String → String × List String) (steps : List StepInput) (b : String),
      b ≠ "" → (interpretRuleSteps strip steps (some b)).2 = some b) ∧
    (∀ (ai : AICall) (steps : List StepInput) (ctx : AContext) (idx : Nat) (b : String),
      b ≠ "" → ctx.base_url = some b →
      (interpretStepsAux ai ctx idx steps).2.base_url = some b) ∧
    (∀ (clean : String) (links : List String) (raw exp b : String),
      (interpretRuleStep clean links raw exp none).2 = some b →
      ∃ u, truthyOpt (resolveNavUrl links raw clean none) = some u ∧
        strStarts u "http" = true ∧ matchBase u = some b ∧
        (interpretRuleStep clean links raw exp none).1 =
          { action := "navigate", params := { url := some u },
            description := strTake clean 100, expected := exp }) ∧
    (∀ (ctx : AContext) (r : AIRaw), ctx.base_url = none → ∀ b : String,
      (aiCtxAfterNav ctx r).base_url = some b →
      r.action = "navigate" ∧ strStarts (r.params.url.getD "") "http" = true ∧
        matchBase (r.params.url.getD "") = some b) :=
  ⟨fun strip steps b hb => interpretRuleSteps_base_preserved strip steps b hb,
   fun ai steps ctx idx b hb hc => interpretStepsAux_base_preserved ai steps ctx idx b hb hc,
   fun clean links raw exp b h => interpretRuleStep_base_set_shape clean links raw exp b h,
   fun ctx r hc b h => aiCtxAfterNav_set ctx r hc b h⟩

/-- Closed instance of C4: a later absolute navigation to a different host
leaves an already-set `base_url` unchanged. -/
theorem base_url_set_once_witness :
    ("http://h" : String) ≠ "" ∧
      (interpretRuleSteps (fun s => (s, []))
        [{ content := "Navigate to https://other.example/page" }]
        (some "http://h")).2 = some "http://h" :=
  ⟨by decide, base_url_set_once.1 _ _ _ (by decide)⟩

/-! ### Claim C10: the AI interpretation pass never drops a step -/

theorem interpretStepsAux_length (ai : AICall) (steps : List StepInput) :
    ∀ (ctx : AContext) (idx : Nat),
      (interpretStepsAux ai ctx idx steps).1.length = steps.length := by
  induction steps with
  | nil => intro ctx idx; rfl
  | cons s rest ih =>
    intro ctx idx
    simp only [interpretStepsAux, List.length_cons]
    rw [ih]

theorem interpretMultipleSteps_length (ai : AICall) (steps : List StepInput)
    (ctx : AContext) :
    (interpretMultipleSteps ai steps ctx).1.length = steps.length :=
  interpretStepsAux_length ai steps _ 0

/-- The contract of the enabled AI interpretation pass: as many actions as
steps, never an empty result for non-empty input (so the orchestrator takes
the AI branch), and a failing per-step AI call is substituted by the fixed
`wait` fallback with timeout 1000 and confidence 0. -/
def aiInterpretationContract (ai : AICall) (steps : List StepInput)
    (ctx : AContext) : Prop :=
  (interpretMultipleSteps ai steps ctx).1.length = steps.length ∧
  (interpretMultipleSteps ai steps ctx).1 ≠ [] ∧
  aiBranchTaken true ai steps = true ∧
  (∀ (ctx2 : AContext) (idx : Nat) (s : StepInput),
    ai (aiStepText s) (aiExpected s) ctx2 = none →
    (interpretOneStep ai ctx2 idx s).1 = aiFallbackWait s)

/-- C10: with the AI interpreter enabled, `interpret_multiple_steps` returns
exactly one action per input step — failed per-step calls become `wait`
actions with timeout 1000 and confidence 0.0, never dropped — so a non-empty
step list yields a non-empty result and the orchestrator never falls back to
the whole-sequence rule-based branch. -/
theorem ai_interpretation_totality (ai : AICall) (steps : List StepInput)
    (ctx : AContext) (h : steps ≠ []) : aiInterpretationContract ai steps ctx := by
  have hlen := interpretMultipleSteps_length ai steps ctx
  have hne : ∀ ctx3 : AContext, (interpretMultipleSteps ai steps ctx3).1 ≠ [] := by
    intro ctx3 he
    apply h
    apply List.length_eq_zero.mp
    rw [← interpretMultipleSteps_length ai steps ctx3, he]
    rfl
  refine ⟨hlen, hne ctx, ?_, ?_⟩
  · unfold aiBranchTaken
    cases hE : (interpretMultipleSteps ai steps {}).1 with
    | nil => exact absurd hE (hne {})
    | cons a as => rfl
  · intro ctx2 idx s hf
    unfold interpretOneStep
    rw [hf]

/-- Closed instance of C10: with an always-failing AI call, the one-step list
still yields one fallback action and the AI branch is taken. -/
theorem ai_interpretation_totality_witness :
    ([({ content := "Open the portal" } : StepInput)] ≠ []) ∧
      aiInterpretationContract (fun _ _ _ => none)
        [{ content := "Open the portal" }] {} :=
  ⟨by decide, ai_interpretation_totality _ _ _ (by decide)⟩

/-! ### Claim C2: URL resolution priority of the rule-based navigation branch -/

/-- The contract of the navigation branch for a step whose visible text
matches a navigation keyword: the URL comes from the first HTML link if any
link was extracted, else from the first absolute URL in the raw text, else
from the first relative path (prefixed with the base URL when set); a falsy
resolved URL (no candidate, or an empty first link) yields the placeholder
wait with timeout 1000, and an emitted navigate never carries an empty
URL. -/
def navResolutionContract (clean : String) (links : List String)
    (raw expected : String) (base : Option String) : Prop :=
  (∀ l ls, links = l :: ls → l ≠ "" →
    (interpretRuleStep clean links raw expected base).1 =
      { action := "navigate", params := { url := some l },
        description := strTake clean 100, expected := expected }) ∧
  (∀ ls, links = "" :: ls →
    (interpretRuleStep clean links raw expected base).1 =
      waitRAction clean expected) ∧
  (∀ u, links = [] → findFullUrl raw = some u →
    (interpretRuleStep clean links raw expected base).1 =
      { action := "navigate", params := { url := some u },
        description := strTake clean 100, expected := expected }) ∧
  (∀ p, links = [] → findFullUrl raw = none → findRelPath clean = some p →
    (interpretRuleStep clean links raw expected base).1 =
      { action := "navigate",
        params := { url := some (if optStrTruthy base then
          rstripSlash (base.getD "") ++ p else p) },
        description := strTake clean 100, expected := expected }) ∧
  (links = [] → findFullUrl raw = none → findRelPath clean = none →
    (interpretRuleStep clean links raw expected base).1 =
      waitRAction clean expected) ∧
  (∀ u, (interpretRuleStep clean links raw expected base).1.action = "navigate" →
    (interpretRuleStep clean links raw expected base).1.params.url = some u →
    u ≠ "")

/-- C2: for every step whose HTML-stripped visible text matches
"navigate"/"open"/"go to", the rule-based interpreter resolves the URL by
link-first/absolute-URL/relative-path priority, falls back to a 1000ms wait
when nothing resolves, and never emits a navigate with an empty URL. -/
theorem nav_url_resolution (clean : String) (links : List String)
    (raw expected : String) (base : Option String)
    (h : navKeyword clean = true) :
    navResolutionContract clean links raw expected base := by
  refine ⟨?_, ?_, ?_, ?_, ?_, ?_⟩
  · intro l ls hl hlne
    subst hl
    have hr : truthyOpt (resolveNavUrl (l :: ls) raw clean base) = some l :=
      truthyOpt_some hlne
    unfold interpretRuleStep
    rw [if_pos h, hr]
  · intro ls hl
    subst hl
    have hr : truthyOpt (resolveNavUrl ("" :: ls) raw clean base) = none := rfl
    unfold interpretRuleStep
    rw [if_pos h, hr]
  · intro u hl hu
    subst hl
    have hr : truthyOpt (resolveNavUrl [] raw clean base) = some u := by
      unfold resolveNavUrl
      rw [hu]
      exact truthyOpt_some (findFullUrl_ne_empty hu)
    unfold interpretRuleStep
    rw [if_pos h, hr]
  · intro p hl hu hp
    subst hl
    have hpne : p ≠ "" := findRelPath_ne_empty hp
    have hr : truthyOpt (resolveNavUrl [] raw clean base) =
        some (if optStrTruthy base then rstripSlash (base.getD "") ++ p else p) := by
      unfold resolveNavUrl
      rw [hu, hp]
      cases hbase : optStrTruthy base with
      | true => exact truthyOpt_some (append_ne_empty_right _ hpne)
      | false => exact truthyOpt_some hpne
    unfold interpretRuleStep
    rw [if_pos h, hr]
  · intro hl hu hp
    subst hl
    have hr : truthyOpt (resolveNavUrl [] raw clean base) = none := by
      unfold resolveNavUrl
      rw [hu, hp]
      rfl
    unfold interpretRuleStep
    rw [if_pos h, hr]
  · intro u
    unfold interpretRuleStep
    rw [if_pos h]
    cases htu : truthyOpt (resolveNavUrl links raw clean base) with
    | none =>
      intro h1 _
      have h1b : ("wait" : String) = "navigate" := h1
      exact absurd h1b (by decide)
    | some u0 =>
      intro _ h2
      have h3 : some u0 = some u := h2
      cases h3
      exact truthyOpt_ne htu

/-- Closed instance of C2 on a step with an extracted hyperlink. -/
theorem nav_url_resolution_witness :
    navKeyword "Navigate to the login page" = true ∧
      navResolutionContract "Navigate to the login page"
        ["http://example.test/login"] "raw text" "" none :=
  ⟨by decide, nav_url_resolution _ _ _ _ _ (by decide)⟩

/-! ### Claim C1: best-effort tiered navigation -/

/-- The contract of one navigate call with a truthy URL and the default wait
strategy: the session is (lazily) initialized, the result reports
`success: True` with the navigation screenshot (a non-empty path), and the
browser events follow the three tiers — network-idle with 30s timeout, then
dom-content-loaded with 10s timeout, then a fixed 1000ms delay — with the
screenshot captured in every tier. -/
def navTierContract (env : PwEnv) (st : PwState) (params : Params)
    (url : String) : Prop :=
  (executeAction env st "navigate" params).1 =
    initBrowser st (params.headless.getD true) (params.browser_type.getD "chromium") ∧
  (executeAction env st "navigate" params).2.2.success = some true ∧
  (executeAction env st "navigate" params).2.2.error = none ∧
  (executeAction env st "navigate" params).2.2.screenshot =
    some (takeScreenshot
      (initBrowser st (params.headless.getD true) (params.browser_type.getD "chromium"))
      (navStepName url)) ∧
  takeScreenshot
    (initBrowser st (params.headless.getD true) (params.browser_type.getD "chromium"))
    (navStepName url) ≠ "" ∧
  (env.gotoOk = true →
    (executeAction env st "navigate" params).2.1 =
      [PwEvent.gotoCall url "networkidle" 30000, PwEvent.waitMs 500,
       PwEvent.shot (navStepName url)]) ∧
  (env.gotoOk = false → env.domOk = true →
    (executeAction env st "navigate" params).2.1 =
      [PwEvent.gotoCall url "networkidle" 30000,
       PwEvent.loadState "domcontentloaded" 10000, PwEvent.waitMs 500,
       PwEvent.shot (navStepName url)]) ∧
  (env.gotoOk = false → env.domOk = false →
    (executeAction env st "navigate" params).2.1 =
      [PwEvent.gotoCall url "networkidle" 30000,
       PwEvent.loadState "domcontentloaded" 10000, PwEvent.waitMs 1000,
       PwEvent.shot (navStepName url)])

/-- C1: every navigate call with a URL first waits for network-idle with a
30s timeout, falls back to dom-content-loaded with a 10s timeout, then to a
fixed 1000ms delay; a screenshot is captured and `success=true` (with no
error) is returned in all three tiers, so navigation never fails solely
because every wait tier timed out. -/
theorem navigate_best_effort (env : PwEnv) (st : PwState) (params : Params)
    (url : String) (h1 : params.url = some url) (h2 : url ≠ "")
    (h3 : params.wait_until = none) : navTierContract env st params url := by
  have htu : truthyOpt params.url = some url := by
    rw [h1]
    exact truthyOpt_some h2
  have hout : executeAction env st "navigate" params =
      (initBrowser st (params.headless.getD true) (params.browser_type.getD "chromium"),
       navigateBranch env
         (initBrowser st (params.headless.getD true) (params.browser_type.getD "chromium"))
         params url) := by
    unfold executeAction
    rw [htu]
    rfl
  refine ⟨?_, ?_, ?_, ?_,
    takeScreenshot_ne (fullyInit_initBrowser st _ _) _, ?_, ?_, ?_⟩
  · rw [hout]
  · rw [hout]
    rfl
  · rw [hout]
    rfl
  · rw [hout]
    rfl
  · intro hg
    rw [hout]
    unfold navigateBranch
    rw [h3, hg]
    rfl
  · intro hg hd
    rw [hout]
    unfold navigateBranch
    rw [h3, hg, hd]
    rfl
  · intro hg hd
    rw [hout]
    unfold navigateBranch
    rw [h3, hg, hd]
    rfl

/-- Closed instance of C1 in the worst tier: both waits fail (an unreachable
URL), yet the call still reports success with a non-empty screenshot after
the fixed delay. -/
theorem navigate_best_effort_witness :
    (({ url := some "http://unreachable.test/x" } : Params).url =
        some "http://unreachable.test/x") ∧
      ("http://unreachable.test/x" : String) ≠ "" ∧
      (({ url := some "http://unreachable.test/x" } : Params).wait_until = none) ∧
      navTierContract ⟨false, false, true⟩ {}
        { url := some "http://unreachable.test/x" } "http://unreachable.test/x" :=
  ⟨rfl, by decide, rfl, navigate_best_effort _ _ _ _ rfl (by decide) rfl⟩

end Testflow
